import Mathlib

/-!
# dynaload.h: the plugin-loader interface header

The only source of the dynamic-loading layer is the header
`cgi-bin/Nine5Q/Imager/include/dynaload.h`.  What it does is decided by the C
preprocessor, so the embedding has two parts:

* the header itself, line for line, as a list of preprocessor directives and
  C declarations (`dynaload_h`);
* the conditional-inclusion and macro-table semantics of the C preprocessor
  (`step`, `preprocess`), run on that list from the macros the build command
  predefines (`Config`).

Everything the theorems speak of (the loader backend, `minthandle_t`, the
declared prototypes, the `I_*` symbol names) is read off the result of that
run, or, for text that is compiled out, off the directive list.

The header declares `DSO_call` but does not define it.  The theorems on
dispatch therefore hold for every body of the declared shape, over the handle
as the header declares it.
-/

namespace Dynaload

/-! ## C declarations -/

/-- The C types that occur in the header: named types and pointers to them. -/
inductive CType where
  | base (name : String)
  | ptr (pointee : CType)
  deriving DecidableEq

/-- A member of a struct: type and name. -/
structure Field where
  type : CType
  name : String
  deriving DecidableEq

/-- A parameter of a prototype; the name may be left out (`int DSO_close(void *)`). -/
structure Param where
  type : CType
  name : Option String
  deriving DecidableEq

/-- The declarations the header contains. -/
inductive Decl where
  | typedef (type : CType) (name : String)
  | typedefStruct (fields : List Field) (name : String)
  | proto (ret : CType) (name : String) (params : List Param)
  deriving DecidableEq

/-! ## Preprocessor syntax -/

/-- The replacement list of a macro: nothing, a string literal, or a number. -/
inductive Body where
  | empty
  | str (s : String)
  | num (n : Nat)
  deriving DecidableEq

/-- The controlling expressions the header uses: `defined(M)` and a constant. -/
inductive Cond where
  | defined (m : String)
  | const (n : Int)
  deriving DecidableEq

/-- One logical line of the header. -/
inductive Directive where
  | ifndefLine (m : String)
  | ifdefLine (m : String)
  | ifLine (c : Cond)
  | elifLine (c : Cond)
  | elseLine
  | endifLine
  | defineLine (m : String) (b : Body)
  | undefLine (m : String)
  | includeLine (file : String)
  | importLine (file : String)
  | codeLine (d : Decl)
  deriving DecidableEq

/-! ## Preprocessor semantics -/

/-- The macro table: name and replacement list, most recent definition first. -/
abbrev Table := List (String × Body)

/-- Whether `m` is currently defined. -/
def isDefined (t : Table) (m : String) : Bool :=
  t.any (fun e => e.1 == m)

/-- The replacement list of `m`, if it is defined. -/
def lookup (t : Table) (m : String) : Option Body :=
  (t.find? (fun e => e.1 == m)).map (fun e => e.2)

/-- Remove `m` from the table (`#undef`; a no-op when `m` is not defined). -/
def undefine (t : Table) (m : String) : Table :=
  t.filter (fun e => e.1 != m)

/-- Enter `m` in the table (`#define`); a definition already there is replaced,
as compilers do after warning about the redefinition. -/
def defineIn (t : Table) (m : String) (b : Body) : Table :=
  (m, b) :: undefine t m

/-- Evaluate a controlling expression. -/
def Cond.eval (t : Table) : Cond → Bool
  | .defined m => isDefined t m
  | .const n => n != 0

/-- One open `#if` section. `outer`: the enclosing group is being processed;
`taken`: a group of this section has already been selected; `live`: the
current group is being processed; `elseSeen`: `#else` has occurred. -/
structure Frame where
  outer : Bool
  taken : Bool
  live : Bool
  elseSeen : Bool
  deriving DecidableEq

/-- What the preprocessor passes on: a file to include, or a declaration.  The
content of an included file is not part of the header; the inclusion is
recorded and the macro table is left as it is. -/
inductive Item where
  | file (name : String)
  | decl (d : Decl)
  deriving DecidableEq

/-- Preprocessor state: macro table, open `#if` sections (innermost first) and
the items passed on so far, in source order. -/
structure PP where
  table : Table
  stack : List Frame
  out : List Item
  deriving DecidableEq

/-- Whether the current position is in a group that is being processed. -/
def PP.live (s : PP) : Bool :=
  match s.stack with
  | [] => true
  | f :: _ => f.live

/-- Open an `#if` section whose first condition evaluates to `b`. -/
def PP.openIf (s : PP) (b : Bool) : PP :=
  let sel := s.live && b
  { s with stack := { outer := s.live, taken := sel, live := sel, elseSeen := false } :: s.stack }

/-- Pass an item on if the current group is being processed. -/
def PP.emit (s : PP) (i : Item) : PP :=
  if s.live then { s with out := s.out ++ [i] } else s

/-- Process one line.  `none` is a preprocessing error: `#elif`, `#else` or
`#endif` without an open section, or `#elif`/`#else` after `#else`. -/
def step (s : PP) : Directive → Option PP
  | .ifndefLine m => some (s.openIf (!isDefined s.table m))
  | .ifdefLine m => some (s.openIf (isDefined s.table m))
  | .ifLine c => some (s.openIf (c.eval s.table))
  | .elifLine c =>
    match s.stack with
    | [] => none
    | f :: rest =>
      if f.elseSeen then none
      else
        let sel := f.outer && !f.taken && c.eval s.table
        some { s with stack := { f with taken := f.taken || sel, live := sel } :: rest }
  | .elseLine =>
    match s.stack with
    | [] => none
    | f :: rest =>
      if f.elseSeen then none
      else
        some { s with stack :=
          { f with taken := true, live := f.outer && !f.taken, elseSeen := true } :: rest }
  | .endifLine =>
    match s.stack with
    | [] => none
    | _ :: rest => some { s with stack := rest }
  | .defineLine m b => some (if s.live then { s with table := defineIn s.table m b } else s)
  | .undefLine m => some (if s.live then { s with table := undefine s.table m } else s)
  | .includeLine f => some (s.emit (.file f))
  | .importLine f => some (s.emit (.file f))
  | .codeLine d => some (s.emit (.decl d))

/-- Process the lines in order, stopping at the first error. -/
def steps : List Directive → PP → Option PP
  | [], s => some s
  | d :: ds, s => (step s d).bind (steps ds)

/-- Preprocess a file from the predefined macros `t`; an `#if` section still
open at the end of the file is an error. -/
def preprocess (ds : List Directive) (t : Table) : Option PP :=
  (steps ds { table := t, stack := [], out := [] }).bind
    (fun s => if s.stack.isEmpty then some s else none)

/-! ## The header -/

def void : CType := .base "void"
def int : CType := .base "int"
def char : CType := .base "char"
def double : CType := .base "double"

/-- The text of `dynaload.h`; the number in each comment is the source line. -/
def dynaload_h : List Directive :=
  [ .ifndefLine "_DYNALOAD_H_",                                                -- 1
    .defineLine "_DYNALOAD_H_" .empty,                                         -- 2
    .includeLine "log.h",                                                      -- 4
    .ifLine (.defined "OS_hpux"),                                              -- 6
    .includeLine "dl.h",                                                       -- 7
    .codeLine (.typedef (.base "shl_t") "minthandle_t"),                       -- 8
    .elifLine (.defined "WIN32"),                                              -- 9
    .defineLine "WIN32_LEAN_AND_MEAN" .empty,                                  -- 10
    .includeLine "windows.h",                                                  -- 11
    .codeLine (.typedef (.base "HMODULE") "minthandle_t"),                     -- 12
    .undefLine "WIN32_LEAN_AND_MEAN",                                          -- 13
    .elifLine (.defined "OS_darwin"),                                          -- 14
    .defineLine "DL_LOADONCEONLY" .empty,                                      -- 15
    .defineLine "DLSYMUN" .empty,                                              -- 16
    .undefLine "environ",                                                      -- 17
    .undefLine "bool",                                                         -- 18
    .importLine "mach-o/dyld.h",                                               -- 20
    .codeLine (.typedef (.ptr void) "minthandle_t"),                           -- 21
    .elseLine,                                                                 -- 22
    .includeLine "dlfcn.h",                                                    -- 23
    .codeLine (.typedef (.ptr void) "minthandle_t"),                           -- 24
    .endifLine,                                                                -- 25
    .includeLine "EXTERN.h",                                                   -- 27
    .includeLine "perl.h",                                                     -- 28
    .includeLine "ppport.h",                                                   -- 29
    .includeLine "ext.h",                                                      -- 31
    .codeLine (.typedefStruct                                                  -- 33-37
      [ ⟨.base "minthandle_t", "handle"⟩,
        ⟨.ptr char, "filename"⟩,
        ⟨.ptr (.base "func_ptr"), "function_list"⟩ ] "DSO_handle"),
    .codeLine (.typedefStruct                                                  -- 39-43
      [ ⟨.ptr (.base "HV"), "hv"⟩,
        ⟨.ptr char, "key"⟩,
        ⟨.ptr void, "store"⟩ ] "UTIL_args"),
    .ifLine (.const 0),                                                        -- 45
    .codeLine (.proto int "getobj"                                             -- 46
      [ ⟨.ptr void, some "hv_t"⟩, ⟨.ptr char, some "key"⟩,
        ⟨.ptr char, some "type"⟩, ⟨.ptr (.ptr void), some "store"⟩ ]),
    .codeLine (.proto int "getint"                                             -- 47
      [ ⟨.ptr void, some "hv_t"⟩, ⟨.ptr char, some "key"⟩, ⟨.ptr int, some "store"⟩ ]),
    .codeLine (.proto int "getdouble"                                          -- 48
      [ ⟨.ptr void, some "hv_t"⟩, ⟨.ptr char, some "key"⟩,
        ⟨.ptr double, some "store"⟩ ]),
    .codeLine (.proto int "getvoid"                                            -- 49
      [ ⟨.ptr void, some "hv_t"⟩, ⟨.ptr char, some "key"⟩,
        ⟨.ptr (.ptr void), some "store"⟩ ]),
    .endifLine,                                                                -- 50
    .codeLine (.proto (.ptr void) "DSO_open"                                   -- 52
      [ ⟨.ptr char, some "file"⟩, ⟨.ptr (.ptr char), some "evalstring"⟩ ]),
    .codeLine (.proto int "DSO_close" [ ⟨.ptr void, none⟩ ]),                  -- 53
    .codeLine (.proto void "DSO_call"                                          -- 54
      [ ⟨.ptr (.base "DSO_handle"), some "handle"⟩, ⟨int, some "func_index"⟩,
        ⟨.ptr (.base "HV"), some "hv"⟩ ]),
    .ifdefLine "__EMX__",                                                      -- 56
    .ifndefLine "RTLD_LAZY",                                                   -- 57
    .defineLine "RTLD_LAZY" (.num 0),                                          -- 58
    .endifLine,                                                                -- 59
    .codeLine (.proto int "dlclose" [ ⟨.base "minthandle_t", none⟩ ]),         -- 60
    .endifLine,                                                                -- 61
    .ifdefLine "DLSYMUN",                                                      -- 63
    .defineLine "I_EVALSTR" (.str "_evalstr"),                                 -- 65
    .defineLine "I_SYMBOL_TABLE" (.str "_symbol_table"),                       -- 66
    .defineLine "I_UTIL_TABLE" (.str "_util_table"),                           -- 67
    .defineLine "I_FUNCTION_LIST" (.str "_function_list"),                     -- 68
    .defineLine "I_INSTALL_TABLES" (.str "_install_tables"),                   -- 69
    .elseLine,                                                                 -- 71
    .defineLine "I_EVALSTR" (.str "evalstr"),                                  -- 73
    .defineLine "I_SYMBOL_TABLE" (.str "symbol_table"),                        -- 74
    .defineLine "I_UTIL_TABLE" (.str "util_table"),                            -- 75
    .defineLine "I_FUNCTION_LIST" (.str "function_list"),                      -- 76
    .defineLine "I_INSTALL_TABLES" (.str "install_tables"),                    -- 77
    .endifLine,                                                                -- 79
    .endifLine ]                                                               -- 81

/-! ## Build configurations -/

/-- A build configuration: for each platform or convention flag the header
tests, whether the build command predefines it.  The include guard
`_DYNALOAD_H_` and `RTLD_LAZY` are not predefined (first inclusion; the
content of included files is outside the header). -/
structure Config where
  OS_hpux : Bool
  WIN32 : Bool
  OS_darwin : Bool
  DLSYMUN : Bool
  __EMX__ : Bool
  deriving DecidableEq

/-- The table entry made by `-DNAME` (which defines `NAME` as `1`), if given. -/
def flag (given : Bool) (m : String) : Table :=
  if given then [(m, .num 1)] else []

/-- The macro table before the first line of the header. -/
def Config.predefined (c : Config) : Table :=
  flag c.OS_hpux "OS_hpux" ++ flag c.WIN32 "WIN32" ++ flag c.OS_darwin "OS_darwin" ++
    flag c.DLSYMUN "DLSYMUN" ++ flag c.__EMX__ "__EMX__"

/-- The header preprocessed under configuration `c`. -/
def build (c : Config) : Option PP :=
  preprocess dynaload_h c.predefined

/-! ## Reading the result -/

/-- The four native loader APIs. -/
inductive Backend where
  | hpux
  | windows
  | mach
  | dlfcn
  deriving DecidableEq

/-- The loader API a system header belongs to. -/
def Backend.ofHeader (f : String) : Option Backend :=
  if f = "dl.h" then some .hpux
  else if f = "windows.h" then some .windows
  else if f = "mach-o/dyld.h" then some .mach
  else if f = "dlfcn.h" then some .dlfcn
  else none

/-- The loader APIs whose header was included, in order. -/
def backends (s : PP) : List Backend :=
  s.out.filterMap fun
    | .file f => Backend.ofHeader f
    | .decl _ => none

/-- The types `name` was declared as by a plain `typedef`, in order. -/
def typedefsOf (s : PP) (name : String) : List CType :=
  s.out.filterMap fun
    | .decl (.typedef t n) => if n = name then some t else none
    | _ => none

/-- The function prototypes that were passed on, in order. -/
def protos (s : PP) : List Decl :=
  s.out.filterMap fun
    | .decl (.proto r n ps) => some (.proto r n ps)
    | _ => none

/-- The name a declaration introduces. -/
def Decl.name : Decl → String
  | .typedef _ n => n
  | .typedefStruct _ n => n
  | .proto _ n _ => n

/-- The backend selected under `c`: defined when exactly one loader header is
included. -/
def selected (c : Config) : Option Backend :=
  (build c).bind fun s =>
    match backends s with
    | [b] => some b
    | _ => none

/-- Whether `DL_LOADONCEONLY` is defined after the header.  No configuration
predefines it, so it is defined only if the header defined it. -/
def loadOnce (c : Config) : Option Bool :=
  (build c).map fun s => isDefined s.table "DL_LOADONCEONLY"

/-- Whether `DLSYMUN` is defined after the header.  No line after the platform
chain defines or undefines it, so this is also its state at `#ifdef DLSYMUN`. -/
def underscored (c : Config) : Option Bool :=
  (build c).map fun s => isDefined s.table "DLSYMUN"

/-- The five roles of the plugin contract, named by the macro that spells them. -/
inductive Role where
  | I_EVALSTR
  | I_SYMBOL_TABLE
  | I_UTIL_TABLE
  | I_FUNCTION_LIST
  | I_INSTALL_TABLES
  deriving DecidableEq

/-- The macro of a role. -/
def Role.ident : Role → String
  | .I_EVALSTR => "I_EVALSTR"
  | .I_SYMBOL_TABLE => "I_SYMBOL_TABLE"
  | .I_UTIL_TABLE => "I_UTIL_TABLE"
  | .I_FUNCTION_LIST => "I_FUNCTION_LIST"
  | .I_INSTALL_TABLES => "I_INSTALL_TABLES"

/-- All roles, in the order of the header. -/
def Role.all : List Role :=
  [.I_EVALSTR, .I_SYMBOL_TABLE, .I_UTIL_TABLE, .I_FUNCTION_LIST, .I_INSTALL_TABLES]

/-- The concrete symbol name of a role under `c`: the string literal the role's
macro expands to after the header. -/
def symbolName (c : Config) (r : Role) : Option String :=
  (build c).bind fun s =>
    match lookup s.table r.ident with
    | some (.str n) => some n
    | _ => none

/-- The spec's table of symbol names (section 6): plain and underscore-prefixed
spelling of each role. -/
def specName (underscore : Bool) : Role → String
  | .I_EVALSTR => if underscore then "_evalstr" else "evalstr"
  | .I_SYMBOL_TABLE => if underscore then "_symbol_table" else "symbol_table"
  | .I_UTIL_TABLE => if underscore then "_util_table" else "util_table"
  | .I_FUNCTION_LIST => if underscore then "_function_list" else "function_list"
  | .I_INSTALL_TABLES => if underscore then "_install_tables" else "install_tables"

/-- The prototypes passed on under `c`: the functions the header declares. -/
def declared (c : Config) : Option (List Decl) :=
  (build c).map protos

/-- Whether a prototype works on the loader's native handle `minthandle_t`
itself.  The native handle has no meaning outside the platform backend, so
such a prototype is a primitive of the backend, not an operation for the host. -/
def Decl.onNativeHandle : Decl → Bool
  | .proto r _ ps =>
    r == .base "minthandle_t" || ps.any (fun p => p.type == .base "minthandle_t")
  | _ => false

/-- The operations the header declares for the host under `c`: the declared
prototypes that are not primitives of the loader backend. -/
def hostOperations (c : Config) : Option (List Decl) :=
  (declared c).map fun ps => ps.filter fun d => !d.onNativeHandle

/-! ## Declarations in the text of the header -/

/-- The declarations written in a file, compiled or not, in order. -/
def written (ds : List Directive) : List Decl :=
  ds.filterMap fun
    | .codeLine d => some d
    | _ => none

/-- The prototypes of `name` written in the header. -/
def writtenProtos (name : String) : List Decl :=
  (written dynaload_h).filter fun
    | .proto _ n _ => n == name
    | _ => false

/-- The four generic getters. -/
def getterNames : List String :=
  ["getobj", "getint", "getdouble", "getvoid"]

/-- The callback shape of the spec (section 4.4): the function returns a
success/failure code (`int`) and takes a store reference (`void *`), a key
(`char *`) and one output slot (a pointer), and nothing else. -/
def isGetterShape : Decl → Bool
  | .proto r _ [s, k, o] =>
    r == int && s.type == .ptr void && k.type == .ptr char &&
      (match o.type with
       | .ptr _ => true
       | .base _ => false)
  | _ => false

/-- A prototype without its `i`-th parameter (counted from 0). -/
def Decl.dropParam (i : Nat) : Decl → Decl
  | .proto r n ps => .proto r n (ps.eraseIdx i)
  | d => d

/-- The parameters of a prototype. -/
def Decl.params : Decl → List Param
  | .proto _ _ ps => ps
  | _ => []

/-! ## The dispatcher -/

/-- The struct `DSO_handle` as the header declares it (lines 33-37): the native
handle, the file name, and `function_list`, a bare `func_ptr *`.  A bare
pointer gives the entry that lies at each offset from it and nothing else;
in particular it has no length.  `Native` stands for `minthandle_t` and
`Entry` for `func_ptr`, which `ext.h` declares, not this header. -/
structure DSO_handle (Native Entry : Type) where
  handle : Native
  filename : String
  function_list : Int → Entry

/-- The function table of a handle when host and module have agreed on the
length `n`: the entries at the offsets `0`, ..., `n - 1` of `function_list`.
The length is no part of the handle. -/
def DSO_handle.table {Native Entry : Type} (h : DSO_handle Native Entry) (n : Nat) :
    List Entry :=
  (List.range n).map fun (i : Nat) => h.function_list (Int.ofNat i)

/-- No flag given: the generic POSIX build. -/
def cfgPosix : Config :=
  { OS_hpux := false, WIN32 := false, OS_darwin := false, DLSYMUN := false, __EMX__ := false }

/-- Only `OS_hpux` given. -/
def cfgHpux : Config := { cfgPosix with OS_hpux := true }

/-- Only `WIN32` given. -/
def cfgWin32 : Config := { cfgPosix with WIN32 := true }

/-- Only `OS_darwin` given. -/
def cfgDarwin : Config := { cfgPosix with OS_darwin := true }

/-- `OS_darwin` and `WIN32` given together. -/
def cfgDarwinWin32 : Config := { cfgPosix with OS_darwin := true, WIN32 := true }

/-- Only `__EMX__` given: the OS/2 build. -/
def cfgOS2 : Config := { cfgPosix with __EMX__ := true }

/-- Preprocessing the header succeeds in every configuration, and `DLSYMUN`
ends up defined exactly when it was predefined or the Mach branch was taken. -/
theorem underscored_eq (c : Config) :
    underscored c =
      some (c.DLSYMUN || (c.OS_darwin && !c.OS_hpux && !c.WIN32)) := by
  rcases c with ⟨a, b, d, e, f⟩
  cases a <;> cases b <;> cases d <;> cases e <;> cases f <;> decide

/-- The header spells every role as the spec's table does, for the convention
in force. -/
theorem symbolName_eq (c : Config) (r : Role) :
    symbolName c r = (underscored c).map fun u => specName u r := by
  rcases c with ⟨a, b, d, e, f⟩
  cases r <;> cases a <;> cases b <;> cases d <;> cases e <;> cases f <;> decide

/-- C1. In every configuration the five role macros expand to the names of the
spec's table: the plain names `evalstr`, `symbol_table`, `util_table`,
`function_list`, `install_tables` when `DLSYMUN` is not defined, and the same
names with a leading underscore when it is. -/
theorem symbol_names_as_in_table (c : Config) :
    (underscored c = some false ∧
      Role.all.map (symbolName c) =
        [some "evalstr", some "symbol_table", some "util_table", some "function_list",
          some "install_tables"]) ∨
    (underscored c = some true ∧
      Role.all.map (symbolName c) =
        [some "_evalstr", some "_symbol_table", some "_util_table", some "_function_list",
          some "_install_tables"]) := by
  rcases c with ⟨a, b, d, e, f⟩
  cases a <;> cases b <;> cases d <;> cases e <;> cases f <;> decide

/-- C2. Name formation takes a configuration and a role and nothing else, and
of the configuration only the state of `DLSYMUN` matters: two configurations
in which `DLSYMUN` ends up in the same state give every role the same name. -/
theorem symbolName_depends_on_flag_only (c₁ c₂ : Config) (r : Role)
    (h : underscored c₁ = underscored c₂) :
    symbolName c₁ r = symbolName c₂ r := by
  rw [symbolName_eq, symbolName_eq, h]

/-- Witness of C2: an HP-UX build and an OS/2 build, both without `DLSYMUN`. -/
theorem symbolName_depends_on_flag_only_witness :
    symbolName cfgHpux .I_FUNCTION_LIST =
      symbolName cfgOS2 .I_FUNCTION_LIST :=
  symbolName_depends_on_flag_only cfgHpux
    cfgOS2 .I_FUNCTION_LIST (by decide)

/-- C7. For every role, the name under the underscore convention is the
character `_` followed by the plain name: it is `"_"` appended with the plain
name, it is one character longer, and dropping its first character gives the
plain name back. -/
theorem underscored_name_eq_cons (c₀ c₁ : Config) (r : Role)
    (h₀ : underscored c₀ = some false) (h₁ : underscored c₁ = some true) :
    ∃ p u, symbolName c₀ r = some p ∧ symbolName c₁ r = some u ∧
      u = "_" ++ p ∧ u.length = p.length + 1 ∧ u.drop 1 = p := by
  rw [symbolName_eq, symbolName_eq, h₀, h₁]
  cases r <;> exact ⟨_, _, rfl, rfl, by decide, by decide, by decide⟩

/-- Witness of C7: the generic POSIX build against the Mach build. -/
theorem underscored_name_eq_cons_witness :
    ∃ p u, symbolName cfgPosix .I_INSTALL_TABLES = some p ∧
      symbolName cfgDarwin .I_INSTALL_TABLES = some u ∧
      u = "_" ++ p ∧ u.length = p.length + 1 ∧ u.drop 1 = p :=
  underscored_name_eq_cons cfgPosix
    cfgDarwin .I_INSTALL_TABLES (by decide) (by decide)

/-- C10. A concrete symbol name determines its convention and its role: if a
role under one configuration and a role under another have the same name, the
two configurations agree on `DLSYMUN` and the two roles are the same. -/
theorem symbolName_injective (c₁ c₂ : Config) (r₁ r₂ : Role)
    (h : symbolName c₁ r₁ = symbolName c₂ r₂) :
    underscored c₁ = underscored c₂ ∧ r₁ = r₂ := by
  rw [symbolName_eq, symbolName_eq, underscored_eq, underscored_eq] at h
  rw [underscored_eq, underscored_eq]
  revert h
  generalize (c₁.DLSYMUN || (c₁.OS_darwin && !c₁.OS_hpux && !c₁.WIN32)) = u₁
  generalize (c₂.DLSYMUN || (c₂.OS_darwin && !c₂.OS_hpux && !c₂.WIN32)) = u₂
  cases u₁ <;> cases u₂ <;> cases r₁ <;> cases r₂ <;> decide

/-- Witness of C10: a Windows build and an HP-UX build, same role. -/
theorem symbolName_injective_witness :
    underscored cfgWin32 =
        underscored cfgHpux ∧
      Role.I_UTIL_TABLE = Role.I_UTIL_TABLE :=
  symbolName_injective cfgWin32
    cfgHpux .I_UTIL_TABLE .I_UTIL_TABLE (by decide)

/-! ## Backend selection -/

/-- C3. In every configuration the header includes exactly one loader header
and declares `minthandle_t` exactly once: `dl.h` and `shl_t` if `OS_hpux` is
defined, otherwise `windows.h` and `HMODULE` if `WIN32` is, otherwise
`mach-o/dyld.h` and `void *` if `OS_darwin` is, otherwise `dlfcn.h` and
`void *`. -/
theorem exactly_one_backend (c : Config) :
    (build c).map (fun s => (backends s, typedefsOf s "minthandle_t")) =
      some
        (if c.OS_hpux then ([.hpux], [.base "shl_t"])
         else if c.WIN32 then ([.windows], [.base "HMODULE"])
         else if c.OS_darwin then ([.mach], [.ptr void])
         else ([.dlfcn], [.ptr void])) := by
  rcases c with ⟨a, b, d, e, f⟩
  cases a <;> cases b <;> cases d <;> cases e <;> cases f <;> decide

/-- C4. In every configuration a backend is selected and `DL_LOADONCEONLY` is
defined after the header exactly when that backend is Mach; each of the four
backends is selected in some configuration, so load-once belongs to exactly
one of the four. -/
theorem loadOnce_iff_mach :
    (∀ c : Config, (selected c).isSome = true ∧
      loadOnce c = (selected c).map fun b => decide (b = Backend.mach)) ∧
    (∀ b : Backend, ∃ c : Config, selected c = some b) := by
  constructor
  · intro c
    rcases c with ⟨a, b, d, e, f⟩
    cases a <;> cases b <;> cases d <;> cases e <;> cases f <;> decide
  · intro b
    cases b
    · exact ⟨cfgHpux, by decide⟩
    · exact ⟨cfgWin32, by decide⟩
    · exact ⟨cfgDarwin, by decide⟩
    · exact ⟨cfgPosix, by decide⟩

/-- C9. When the build command does not predefine `DLSYMUN`, the header
defines `DLSYMUN` exactly when it defines `DL_LOADONCEONLY`, both exactly when
the selected backend is Mach, and that is exactly when `OS_darwin` is defined
and neither `OS_hpux` nor `WIN32` is; a configuration with `OS_darwin` and one
of `OS_hpux`, `WIN32` gets the plain names and no load-once. -/
theorem underscore_iff_loadOnce_iff_mach (c : Config) (h : c.DLSYMUN = false) :
    (selected c).isSome = true ∧
    underscored c = loadOnce c ∧
    underscored c = (selected c).map (fun b => decide (b = Backend.mach)) ∧
    (selected c = some Backend.mach ↔
      (c.OS_darwin = true ∧ c.OS_hpux = false ∧ c.WIN32 = false)) ∧
    ((c.OS_darwin = true ∧ (c.OS_hpux = true ∨ c.WIN32 = true)) →
      underscored c = some false ∧ loadOnce c = some false ∧
      Role.all.map (symbolName c) =
        [some "evalstr", some "symbol_table", some "util_table", some "function_list",
          some "install_tables"]) := by
  rcases c with ⟨a, b, d, e, f⟩
  simp only at h
  subst h
  cases a <;> cases b <;> cases d <;> cases f <;> decide

/-- Witness of C9: `OS_darwin` together with `WIN32`, `DLSYMUN` not predefined;
the Windows backend is selected, with plain names and no load-once. -/
theorem underscore_iff_loadOnce_iff_mach_witness :
    cfgDarwinWin32.DLSYMUN = false ∧
    (selected cfgDarwinWin32).isSome = true ∧
    underscored cfgDarwinWin32 = loadOnce cfgDarwinWin32 ∧
    underscored cfgDarwinWin32 =
      (selected cfgDarwinWin32).map (fun b => decide (b = Backend.mach)) ∧
    (underscored cfgDarwinWin32 = some false ∧ loadOnce cfgDarwinWin32 = some false ∧
      Role.all.map (symbolName cfgDarwinWin32) =
        [some "evalstr", some "symbol_table", some "util_table", some "function_list",
          some "install_tables"]) :=
  have t := underscore_iff_loadOnce_iff_mach cfgDarwinWin32 rfl
  ⟨rfl, t.1, t.2.1, t.2.2.1, t.2.2.2.2 ⟨rfl, Or.inr rfl⟩⟩

/-! ## The declared interface -/

/-- C8. In every configuration none of the four getters is declared, although
each is written once in the header (inside `#if 0`); the operations declared
for the host are `DSO_open`, `DSO_close` and `DSO_call`, and the only other
prototype the header ever declares is the loader primitive `dlclose` on the
native handle, for OS/2 (`__EMX__`). -/
theorem getters_compiled_out (c : Config) :
    getterNames.map (fun g => (writtenProtos g).length) = [1, 1, 1, 1] ∧
    (declared c).map (fun ps => getterNames.map fun g => decide (g ∈ ps.map Decl.name)) =
      some [false, false, false, false] ∧
    (hostOperations c).map (fun ps => ps.map Decl.name) =
      some ["DSO_open", "DSO_close", "DSO_call"] ∧
    (declared c).map (fun ps => ps.map Decl.name) =
      some (["DSO_open", "DSO_close", "DSO_call"] ++ if c.__EMX__ then ["dlclose"] else []) := by
  rcases c with ⟨a, b, d, e, f⟩
  cases a <;> cases b <;> cases d <;> cases e <;> cases f <;> decide

/-- C6 as stated fails: `getobj` is one of the four getters, and its prototype
has a fourth parameter, `type`, so it does not have the three-parameter
callback shape. -/
theorem getobj_has_further_parameter :
    "getobj" ∈ getterNames ∧
    (writtenProtos "getobj").map (fun d => (isGetterShape d, d.params.map fun p => p.name)) =
      [(false, [some "hv_t", some "key", some "type", some "store"])] := by
  decide

/-- C6, amended. `getint`, `getdouble` and `getvoid` have the callback shape:
they return `int` and take a store reference, a key and one output slot, with
no further parameter.  `getobj` has that shape with one parameter more, the
type name `char *type`, between the key and the output slot. -/
theorem getter_shapes :
    ["getint", "getdouble", "getvoid"].map (fun g => (writtenProtos g).map isGetterShape) =
      [[true], [true], [true]] ∧
    (writtenProtos "getobj").map (fun d => (d.params[2]?, isGetterShape (d.dropParam 2))) =
      [(some ⟨.ptr char, some "type"⟩, true)] := by
  decide

/-! ## Dispatch -/

end Dynaload
